import Mathlib

/-!
Shallow embedding of the decision core of the `my_trade_bot` repository
(signal engine, volatility classifier, risk manager, order executor and the
RSI indicator), together with theorems settling the frozen claims about it.

Numeric conventions: Python `Decimal` and `float` quantities are modelled as
exact rationals (`ℚ`); `Decimal` quantization with `ROUND_DOWN` is truncation
toward zero.  Fallible lookups (missing symbol info, missing tick, missing
bars) are modelled with `Option`.  Broker-side state (connection flag, open
positions, account snapshot) is passed in explicitly as an environment record.
-/

namespace TradeBot

/-- Signal direction enumeration (src/app/models/enums.py, `SignalDirection`). -/
inductive SignalDirection where
  | BUY
  | SELL
  | NEUTRAL
  deriving DecidableEq, Repr, Inhabited

/-- Volatility regime enumeration (src/app/core/volatility_engine.py, `VolatilityRegime`). -/
inductive VolatilityRegime where
  | LOW_VOL
  | NORMAL
  | HIGH_VOL
  | EXTREME
  deriving DecidableEq, Repr, Inhabited

/-- Strategy signal value (src/app/strategies/base_strategy.py, `SignalResult`).
The diagnostic fields `timeframe`, `reasoning` and `metadata` are omitted;
no claim mentions them. -/
structure SignalResult where
  direction : SignalDirection
  confidence : ℚ
  entry_price : ℚ
  stop_loss : ℚ
  take_profit : ℚ
  strategy_name : String
  symbol : String
  deriving DecidableEq, Repr, Inhabited

/-- Bid/ask snapshot as returned by `MarketData.get_tick`
(src/app/core/market_data.py); only the fields the signal engine reads. -/
structure Tick where
  bid : ℚ
  ask : ℚ
  deriving DecidableEq, Repr

/-- Instrument constraints as read from `mt5.symbol_info`
(fields used by src/app/core/risk_manager.py and order_executor.py). -/
structure SymbolInfo where
  name : String
  trade_tick_value : ℚ
  trade_tick_size : ℚ
  volume_min : ℚ
  volume_max : ℚ
  volume_step : ℚ
  visible : Bool
  trade_allowed : Bool
  deriving DecidableEq, Repr

/-- Truncation of a rational toward zero, the rounding used by Python
`Decimal.quantize(Decimal("1"), rounding=ROUND_DOWN)`. -/
def truncQ (q : ℚ) : ℤ :=
  if q < 0 then ⌈q⌉ else ⌊q⌋

/-- One quantization step `(lot / step).quantize(Decimal("1"), ROUND_DOWN) * step`. -/
def floor_step (lot step : ℚ) : ℚ :=
  ((truncQ (lot / step) : ℤ) : ℚ) * step

/-- Python slice `l[-n:]` for `n > 0`: the last `n` elements (the whole list
when it is shorter than `n`). -/
def pyLastSlice (n : ℕ) (l : List α) : List α :=
  l.drop (l.length - n)

/-- Fraction of values in `window` strictly below `recent`, i.e. the pandas
expression `(window < recent).mean()` in `detect_regime`. -/
def pct_rank (window : List ℚ) (recent : ℚ) : ℚ :=
  ((window.countP fun x => decide (x < recent)) : ℚ) / (window.length : ℚ)

/-- Trailing window used by `VolatilityEngine.detect_regime`
(src/app/core/volatility_engine.py): `series.iloc[-lookback:]` when the series
has at least `lookback` values, otherwise the whole series. -/
def vol_window (series : List ℚ) (lookback : ℕ) : List ℚ :=
  if lookback ≤ series.length then pyLastSlice lookback series else series

/-- Percentile rank of the most recent ATR value against the trailing window,
as computed inside `VolatilityEngine.detect_regime`. -/
def vol_rank (series : List ℚ) (lookback : ℕ) : ℚ :=
  pct_rank (vol_window series lookback) (series.getLast?.getD 0)

/-- Embeds `VolatilityEngine.detect_regime` (src/app/core/volatility_engine.py),
embedded over the ATR(14) series after `dropna()` (the ATR indicator itself
lives in a module outside the decision core).  Empty series defaults to
NORMAL; otherwise the percentile rank of the last value selects the regime. -/
def detect_regime (series : List ℚ) (lookback : ℕ) : VolatilityRegime :=
  if series = [] then .NORMAL
  else
    let r := vol_rank series lookback
    if r < 1/4 then .LOW_VOL
    else if r < 3/4 then .NORMAL
    else if r < 19/20 then .HIGH_VOL
    else .EXTREME

/-- Embeds `VolatilityEngine.get_strategy_weights`: the per-regime weight tables,
as a partial map from strategy name to weight (`dict.get` semantics). -/
def get_strategy_weights (regime : VolatilityRegime) : String → Option ℚ :=
  match regime with
  | .LOW_VOL => fun name =>
      if name = "vwap_scalper" then some (35/100)
      else if name = "rsi_divergence" then some (25/100)
      else if name = "bollinger_squeeze" then some (20/100)
      else if name = "ema_crossover" then some (20/100)
      else none
  | .HIGH_VOL => fun name =>
      if name = "ema_crossover" then some (30/100)
      else if name = "bollinger_squeeze" then some (30/100)
      else if name = "rsi_divergence" then some (20/100)
      else if name = "vwap_scalper" then some (20/100)
      else none
  | .EXTREME => fun name =>
      if name = "ema_crossover" then some (20/100)
      else if name = "bollinger_squeeze" then some (20/100)
      else if name = "rsi_divergence" then some (10/100)
      else if name = "vwap_scalper" then some (10/100)
      else none
  | .NORMAL => fun name =>
      if name = "ema_crossover" then some (30/100)
      else if name = "bollinger_squeeze" then some (25/100)
      else if name = "rsi_divergence" then some (20/100)
      else if name = "vwap_scalper" then some (25/100)
      else none

/-- Embeds `VolatilityEngine.get_position_size_multiplier`. -/
def get_position_size_multiplier (regime : VolatilityRegime) : ℚ :=
  match regime with
  | .LOW_VOL => 1
  | .NORMAL => 1
  | .HIGH_VOL => 3/4
  | .EXTREME => 1/2

/-! ### Order executor (src/app/core/order_executor.py) -/

/-- MetaTrader5 trade return code constants (values of the `MetaTrader5`
module constants referenced by `OrderExecutor.RETCODE_MAP`). -/
def TRADE_RETCODE_DONE : ℕ := 10009

def TRADE_RETCODE_REQUOTE : ℕ := 10004

def TRADE_RETCODE_REJECT : ℕ := 10006

def TRADE_RETCODE_CANCEL : ℕ := 10007

def TRADE_RETCODE_PLACED : ℕ := 10008

def TRADE_RETCODE_NO_MONEY : ℕ := 10019

def TRADE_RETCODE_PRICE_OFF : ℕ := 10021

def TRADE_RETCODE_INVALID : ℕ := 10013

def TRADE_RETCODE_INVALID_VOLUME : ℕ := 10014

def TRADE_RETCODE_INVALID_PRICE : ℕ := 10015

def TRADE_RETCODE_INVALID_STOPS : ℕ := 10016

def TRADE_RETCODE_MARKET_CLOSED : ℕ := 10018

def TRADE_RETCODE_CONNECTION : ℕ := 10031

def TRADE_RETCODE_TIMEOUT : ℕ := 10012

/-- Embeds `OrderExecutor.RETCODE_MAP` as a partial map from return code to message
(`dict.get` semantics; the final entry is the literal key `10027`). -/
def RETCODE_MAP (c : ℕ) : Option String :=
  if c = TRADE_RETCODE_DONE then some "Order executed successfully"
  else if c = TRADE_RETCODE_REQUOTE then some "Requote received"
  else if c = TRADE_RETCODE_REJECT then some "Order rejected by server"
  else if c = TRADE_RETCODE_CANCEL then some "Order cancelled"
  else if c = TRADE_RETCODE_PLACED then some "Order placed (pending)"
  else if c = TRADE_RETCODE_NO_MONEY then some "Insufficient margin"
  else if c = TRADE_RETCODE_PRICE_OFF then some "Price changed, no requote"
  else if c = TRADE_RETCODE_INVALID then some "Invalid request"
  else if c = TRADE_RETCODE_INVALID_VOLUME then some "Invalid volume"
  else if c = TRADE_RETCODE_INVALID_PRICE then some "Invalid price"
  else if c = TRADE_RETCODE_INVALID_STOPS then some "Invalid SL/TP"
  else if c = TRADE_RETCODE_MARKET_CLOSED then some "Market closed"
  else if c = TRADE_RETCODE_CONNECTION then some "No connection"
  else if c = TRADE_RETCODE_TIMEOUT then some "Request timeout"
  else if c = 10027 then some "Invalid volume"
  else none

/-- Result record of `mt5.order_send` (fields read by the executor). -/
structure MqlTradeResult where
  retcode : ℕ
  order : ℕ
  deal : ℕ
  price : ℚ
  volume : ℚ
  comment : String
  deriving DecidableEq, Repr

/-- Uniform order outcome dict built by the executor.  `details_retcode`
models the `details["retcode"]` entry (`none` when the Python dict carries no
`details` key); the remaining `details` entries are pass-throughs of the
broker result and are not modelled. -/
structure OrderOutcome where
  success : Bool
  message : String
  details_retcode : Option ℕ
  deriving DecidableEq, Repr

/-- Trading-relevant settings from src/app/config.py.  `symbol_min_lots` is
the parsed `SYMBOL_MIN_LOTS` override map. -/
structure BotSettings where
  max_risk_per_trade_percent : ℚ
  max_daily_loss_percent : ℚ
  max_open_positions : ℕ
  max_lot_size : ℚ
  free_margin_min_percent : ℚ
  symbol_min_lots : String → Option ℚ
  debug_signals : Bool

/-- Embeds `OrderExecutor._normalize_volume`: clamp to
`[volume_min, min(volume_max, MAX_LOT_SIZE)]` (raising the cap to the minimum
when it falls below it), then floor to the volume step. -/
def _normalize_volume (cfg : BotSettings) (info : SymbolInfo) (lot_size : ℚ) : ℚ :=
  let min_lot := info.volume_min
  let max_lot0 := min info.volume_max cfg.max_lot_size
  let max_lot := if max_lot0 < min_lot then min_lot else max_lot0
  let step := if info.volume_step = 0 then 1/100 else info.volume_step
  let lot := max min_lot (min lot_size max_lot)
  if 0 < step then floor_step lot step else lot

/-- Broker-side environment consumed by `OrderExecutor.execute_market_order`:
connection state, symbol lookup, current tick, the `order_check` return code
(`none` when `order_check` itself returns `None`) and the `order_send`
result (`none` when `order_send` returns `None`). -/
structure ExecEnv where
  connected : Bool
  symbol_info : Option SymbolInfo
  tick : Option Tick
  check_retcode : Option ℕ
  send_result : Option MqlTradeResult

/-- Embeds `OrderExecutor.execute_market_order` (src/app/core/order_executor.py),
from the connectivity guard to the interpretation of the `order_send`
result.  Request construction and logging are side effects without influence
on the returned outcome and are not modelled. -/
def execute_market_order (cfg : BotSettings) (env : ExecEnv) (symbol : String)
    (lot_size : ℚ) : OrderOutcome :=
  if ¬ env.connected then ⟨false, "MT5 not connected", none⟩
  else
    match env.symbol_info with
    | none => ⟨false, "Symbol " ++ symbol ++ " not found", none⟩
    | some info =>
      if ¬ info.trade_allowed then ⟨false, "Symbol not tradeable", none⟩
      else
        let lot := _normalize_volume cfg info lot_size
        if lot ≤ 0 then ⟨false, "Invalid lot size", none⟩
        else
          match env.tick with
          | none => ⟨false, "No tick data", none⟩
          | some _ =>
            let check_failed :=
              match env.check_retcode with
              | some rc => decide (rc ≠ TRADE_RETCODE_DONE)
              | none => false
            if check_failed then
              match env.check_retcode with
              | some rc => ⟨false, (RETCODE_MAP rc).getD "Order check failed", some rc⟩
              | none => ⟨false, "Order check failed", none⟩
            else
              match env.send_result with
              | none => ⟨false, "No result from MT5", none⟩
              | some res =>
                ⟨decide (res.retcode = TRADE_RETCODE_DONE),
                 (RETCODE_MAP res.retcode).getD "Unknown retcode",
                 some res.retcode⟩

/-! ### Risk manager (src/app/core/risk_manager.py) -/

/-- Embeds `RiskDecision` dataclass. -/
structure RiskDecision where
  approved : Bool
  reason : String
  deriving DecidableEq, Repr

/-- Mutable state of `RiskManager`: the fields read or written by
`approve_trade` / `sync_from_account`.  The configured limits live in
`BotSettings` (they are derived from settings in `__init__`:
`max_risk_per_trade = MAX_RISK_PER_TRADE_PERCENT / 100` and
`max_daily_loss = MAX_DAILY_LOSS_PERCENT / 100`). -/
structure RiskState where
  daily_pnl : ℚ
  start_balance : Option ℚ
  consecutive_losses : ℕ
  is_paused : Bool
  deriving DecidableEq, Repr

/-- Account snapshot fields read by `RiskManager._check_free_margin`. -/
structure AccountInfo where
  margin : ℚ
  free_margin : ℚ
  deriving DecidableEq, Repr

/-- Broker-side environment read by `RiskManager.approve_trade`:
connection state, the global open-position list length
(`none` when `mt5.positions_get()` returns `None`), per-symbol position
counts (likewise optional) and the account snapshot. -/
structure RiskEnv where
  connected : Bool
  total_positions : Option ℕ
  positions_for : String → Option ℕ
  account : Option AccountInfo

/-- Embeds `RiskManager._count_symbol_positions`: list length, `0` when the broker
returns `None`. -/
def _count_symbol_positions (env : RiskEnv) (symbol : String) : ℕ :=
  (env.positions_for symbol).getD 0

/-- Embeds `RiskManager._check_correlation`: gold and silver are mutually capped at
fewer than two concurrent positions in the other. -/
def _check_correlation (env : RiskEnv) (symbol : String) : Bool :=
  if symbol = "XAUUSDm" then _count_symbol_positions env "XAGUSDm" < 2
  else if symbol = "XAGUSDm" then _count_symbol_positions env "XAUUSDm" < 2
  else true

/-- Embeds `RiskManager._check_free_margin`: missing account info fails, zero or
negative used margin passes, otherwise the free-margin percentage must meet
the configured minimum. -/
def _check_free_margin (cfg : BotSettings) (env : RiskEnv) : Bool :=
  match env.account with
  | none => false
  | some info =>
    if info.margin ≤ 0 then true
    else decide (cfg.free_margin_min_percent ≤ info.free_margin / info.margin * 100)

/-- Embeds `RiskManager.approve_trade`: the ordered, short-circuiting rule chain.
Returns the decision together with the successor state (the daily-loss
breaker latches `is_paused`).  The `direction` argument is accepted and
ignored exactly as in the source. -/
def approve_trade (cfg : BotSettings) (st : RiskState) (env : RiskEnv)
    (symbol direction : String) (equity : ℚ) : RiskDecision × RiskState :=
  if st.is_paused then (⟨false, "Trading paused by risk manager"⟩, st)
  else if ¬ env.connected then (⟨false, "MT5 not connected"⟩, st)
  else if (match env.total_positions with
           | some n => decide (cfg.max_open_positions ≤ n)
           | none => false) then (⟨false, "Max open positions reached"⟩, st)
  else if st.daily_pnl ≤ equity * (cfg.max_daily_loss_percent / 100) * (-1) then
    (⟨false, "Daily loss limit hit"⟩, { st with is_paused := true })
  else if ¬ _check_correlation env symbol then (⟨false, "Correlated exposure limit"⟩, st)
  else if ¬ _check_free_margin cfg env then (⟨false, "Free margin below threshold"⟩, st)
  else (⟨true, "Approved"⟩, st)

/-- Embeds `RiskManager._regime_multiplier`. -/
def _regime_multiplier (regime : VolatilityRegime) : ℚ :=
  if regime = .HIGH_VOL then 3/4
  else if regime = .EXTREME then 1/2
  else 1

/-- Embeds `RiskManager.calculate_lot_size`: risk-budgeted base lot, regime
multiplier, step quantization (toward zero), then clamp to
`[override-or-instrument minimum, min(instrument maximum, MAX_LOT_SIZE)]`.
Non-positive stop distance or missing symbol info yields `0`; non-positive
tick value or tick size returns the raw instrument minimum. -/
def calculate_lot_size (cfg : BotSettings) (info? : Option SymbolInfo)
    (equity sl_points : ℚ) (regime : VolatilityRegime) : ℚ :=
  if sl_points ≤ 0 then 0
  else
    match info? with
    | none => 0
    | some info =>
      let risk_amount := equity * (cfg.max_risk_per_trade_percent / 100)
      if info.trade_tick_value ≤ 0 ∨ info.trade_tick_size ≤ 0 then info.volume_min
      else
        let value_per_price := info.trade_tick_value / info.trade_tick_size
        let base_lot := risk_amount / (sl_points * value_per_price)
        let lot0 := base_lot * _regime_multiplier regime
        let step := if info.volume_step = 0 then 1/100 else info.volume_step
        let lot1 := if 0 < step then floor_step lot0 step else lot0
        let min_lot := (cfg.symbol_min_lots info.name).getD info.volume_min
        let max_lot := min info.volume_max cfg.max_lot_size
        max min_lot (min lot1 max_lot)

/-- Embeds `RiskManager.sync_from_account`: latch a baseline balance on first call,
then recompute `daily_pnl` as the balance delta. -/
def sync_from_account (st : RiskState) (balance : ℚ) : RiskState :=
  let base := st.start_balance.getD balance
  { st with start_balance := some base, daily_pnl := balance - base }

/-! ### Indicators (src/app/indicators/) -/

/-- Last value of `series.ewm(span=period, adjust=False).mean()`
(src/app/indicators/ema.py): recurrence `e0 = x0`,
`e[k] = a*x[k] + (1-a)*e[k-1]` with `a = 2/(span+1)`; `0` on an empty
series (no claim evaluates it there). -/
def ema_last (xs : List ℚ) (period : ℕ) : ℚ :=
  match xs with
  | [] => 0
  | x :: rest =>
    let a : ℚ := 2 / ((period : ℚ) + 1)
    rest.foldl (fun e y => a * y + (1 - a) * e) x

/-- Successive differences `series.diff()` (the leading NaN dropped):
`delta[i] = x[i] - x[i-1]`. -/
def deltas (xs : List ℚ) : List ℚ :=
  List.zipWith (fun cur prev => cur - prev) (xs.drop 1) xs

/-- Value of the `rsi` series (src/app/indicators/rsi.py) at the final
position.  `none` models a NaN/NA cell: the rolling means are NaN while
fewer than `period` differences exist, and a zero rolling average loss is
replaced by `pd.NA` (`avg_loss.replace(0, pd.NA)`), which propagates through
`100 - 100/(1 + avg_gain/avg_loss)`. -/
def rsi_last (xs : List ℚ) (period : ℕ) : Option ℚ :=
  let ds := deltas xs
  if period = 0 ∨ ds.length < period then none
  else
    let window := pyLastSlice period ds
    let gains := window.map fun d => max d 0
    let losses := window.map fun d => max (-d) 0
    let avg_gain := gains.sum / (period : ℚ)
    let avg_loss := losses.sum / (period : ℚ)
    if avg_loss = 0 then none
    else some (100 - 100 / (1 + avg_gain / avg_loss))

/-! ### Signal engine (src/app/core/signal_engine.py) -/

/-- Python `max(signals, key=lambda s: s.confidence)` over `first :: rest`:
keeps the earliest element among ties (replaces only on strictly greater
confidence). -/
def max_by_confidence (first : SignalResult) (rest : List SignalResult) : SignalResult :=
  rest.foldl (fun acc s => if acc.confidence < s.confidence then s else acc) first

/-- Embeds `SignalEngine._aggregate`: weight-normalized average confidence (default
weight `0.1` for unlisted strategies) and the highest-confidence supporting
candidate.  The `direction` string argument is ignored, as in the source
(the returned direction is `best.direction`).  On an empty list (unreachable
from the call site) the best candidate defaults. -/
def _aggregate (direction : String) (signals : List SignalResult)
    (weights : String → Option ℚ) : Option SignalDirection × ℚ × SignalResult :=
  let total_weight := signals.foldl (fun t s => t + ((weights s.strategy_name).getD (1/10))) 0
  let weighted_conf :=
    signals.foldl (fun t s => t + s.confidence * ((weights s.strategy_name).getD (1/10))) 0
  let confidence := if 0 < total_weight then weighted_conf / total_weight else 0
  let best :=
    match signals with
    | [] => default
    | f :: rest => max_by_confidence f rest
  (some best.direction, confidence, best)

/-- Embeds `SignalEngine._calculate_confluence`: BUY wins with at least two
supporters and no fewer than SELL; SELL wins with at least two supporters and
strictly more than BUY; otherwise no direction.  The fallback third component
is `signals[0]` (defaulting on an empty list, unreachable from the call
site). -/
def _calculate_confluence (signals : List SignalResult)
    (weights : String → Option ℚ) : Option SignalDirection × ℚ × SignalResult :=
  let buy := signals.filter fun s => s.direction = .BUY
  let sell := signals.filter fun s => s.direction = .SELL
  if 2 ≤ buy.length ∧ sell.length ≤ buy.length then _aggregate "BUY" buy weights
  else if 2 ≤ sell.length ∧ buy.length < sell.length then _aggregate "SELL" sell weights
  else (none, 0, signals.headI)

/-- Embeds `SignalEngine._spread_ok`: missing tick fails; otherwise the absolute
bid/ask difference must be strictly positive. -/
def _spread_ok (tick? : Option Tick) : Bool :=
  match tick? with
  | none => false
  | some t => decide (0 < |t.ask - t.bid|)

/-- Embeds `SignalEngine._trend_alignment_ok` over the M5 close column: requires at
least 25 bars and agreement of the EMA(8)/EMA(21) relation with the decision
direction. -/
def _trend_alignment_ok (direction : SignalDirection) (bars_close? : Option (List ℚ)) : Bool :=
  match bars_close? with
  | none => false
  | some closes =>
    if closes.length < 25 then false
    else
      let fast := ema_last closes 8
      let slow := ema_last closes 21
      if slow < fast ∧ direction = .BUY then true
      else if fast < slow ∧ direction = .SELL then true
      else false

/-- History entry appended by `SignalEngine._record_signal`. -/
structure SignalRecord where
  symbol : String
  direction : SignalDirection
  confidence : ℚ
  strategy : String
  entry : ℚ
  sl : ℚ
  tp : ℚ
  regime : VolatilityRegime
  deriving DecidableEq, Repr

/-- The dict literal built inside `_record_signal`. -/
def signal_to_record (s : SignalResult) (regime : VolatilityRegime) : SignalRecord :=
  ⟨s.symbol, s.direction, s.confidence, s.strategy_name, s.entry_price,
   s.stop_loss, s.take_profit, regime⟩

/-- Embeds `SignalEngine._record_signal` acting on the history list: append, then
keep the last 500 entries (`self._signal_history[-500:]`). -/
def _record_signal (history : List SignalRecord) (r : SignalRecord) : List SignalRecord :=
  pyLastSlice 500 (history ++ [r])

/-- Embeds `SignalEngine.get_recent_signals`:
`list(reversed(self._signal_history[-limit:]))`. -/
def get_recent_signals (history : List SignalRecord) (limit : ℕ) : List SignalRecord :=
  (pyLastSlice limit history).reverse

/-- Iteration order of the strategy dict built in
`SignalEngine._get_strategies` (Python dicts preserve insertion order). -/
def strategy_keys : List String :=
  ["ema_crossover", "rsi_divergence", "bollinger_squeeze", "vwap_scalper"]

/-- Per-call environment of `SignalEngine.generate_signal`: the fetched bar
data (the M1 series represented by its derived ATR(14) values, which is all
`detect_regime` reads; the M5 series by its close column, which is all the
trend filter reads; M15 by availability only), the current tick, and the
signal each strategy returns on those bars.  Strategy parameter overrides
merged before the call only influence that returned signal, so quantifying
over `strategy_signal` covers every override. -/
structure EngineEnv where
  bars_m1_atr : Option (List ℚ)
  bars_m5_close : Option (List ℚ)
  bars_m15_present : Bool
  tick : Option Tick
  strategy_signal : String → SignalResult

/-- Engine-owned toggles read by `generate_signal`:
`self._strategy_enabled.get(key, True)`. -/
structure EngineConfig where
  strategy_enabled : String → Option Bool

/-- Embeds `SignalEngine.generate_signal` (src/app/core/signal_engine.py): abort on
missing bars; skip EXTREME regime; run enabled strategies and keep
non-neutral candidates; confluence; confidence threshold `0.7`; trend
alignment on M5; spread sanity; finally stamp the confluence confidence on
the best candidate.  History recording is a state update handled by
`_record_signal` and does not alter the returned value.  `settings` is
consulted only for `DEBUG_SIGNALS` logging, which cannot affect the result. -/
def generate_signal (cfg : EngineConfig) (env : EngineEnv) : Option SignalResult :=
  match env.bars_m1_atr, env.bars_m5_close with
  | some atr1, some close5 =>
    if env.bars_m15_present = false then none
    else
      let regime := detect_regime atr1 200
      if regime = .EXTREME then none
      else
        let weights := get_strategy_weights regime
        let enabled := strategy_keys.filter fun k => (cfg.strategy_enabled k).getD true
        let signals := (enabled.map env.strategy_signal).filter fun s => s.direction ≠ .NEUTRAL
        if signals = [] then none
        else
          let c := _calculate_confluence signals weights
          match c.1 with
          | none => none
          | some dir =>
            if c.2.1 < 7/10 then none
            else if ¬ _trend_alignment_ok dir (some close5) then none
            else if ¬ _spread_ok env.tick then none
            else some { c.2.2 with confidence := c.2.1 }
  | _, _ => none

/-! ### Concrete instances used by witnesses and counterexamples -/

/-- A BUY candidate from the trend strategy. -/
def sigBuyEma : SignalResult := ⟨.BUY, 9/10, 100, 99, 102, "ema_crossover", "BTCUSDm"⟩

/-- A BUY candidate from the mean-reversion strategy. -/
def sigBuyRsi : SignalResult := ⟨.BUY, 8/10, 100, 99, 102, "rsi_divergence", "BTCUSDm"⟩

/-- A SELL candidate from the squeeze strategy. -/
def sigSellBoll : SignalResult := ⟨.SELL, 7/10, 100, 101, 98, "bollinger_squeeze", "BTCUSDm"⟩

/-- A SELL candidate from the scalper strategy. -/
def sigSellVwap : SignalResult := ⟨.SELL, 6/10, 100, 101, 98, "vwap_scalper", "BTCUSDm"⟩

/-- The NEUTRAL sentinel a strategy returns when no condition fires. -/
def neutralSig (name : String) : SignalResult := ⟨.NEUTRAL, 0, 0, 0, 0, name, "BTCUSDm"⟩

/-- Settings with the repository defaults of src/app/config.py
(risk 1%, daily loss 5%, 6 positions, `MAX_LOT_SIZE = 0.01`,
free margin 200%, no per-symbol minimum overrides). -/
def defaultSettings : BotSettings :=
  ⟨1, 5, 6, 1/100, 200, fun _ => none, false⟩

/-- Risk state with the daily PnL already at `-51`. -/
def stDown51 : RiskState := ⟨-51, none, 0, false⟩

/-- Risk state with the daily PnL at `-49`. -/
def stDown49 : RiskState := ⟨-49, none, 0, false⟩

/-- Healthy broker environment: connected, no open positions, unused margin. -/
def envHealthy : RiskEnv := ⟨true, some 0, fun _ => some 0, some ⟨0, 0⟩⟩

/-- Gold-like instrument whose minimum lot `0.1` exceeds the configured
global cap `0.01`: the clamp interval of the claim is empty. -/
def infoMinAboveCap : SymbolInfo := ⟨"XAUUSDm", 1, 1, 1/10, 100, 1/100, true, true⟩

/-- Well-formed instrument: minimum `0.01`, maximum `100`, step `0.01`. -/
def infoRegular : SymbolInfo := ⟨"BTCUSDm", 1, 1, 1/100, 100, 1/100, true, true⟩

/-- Executor environment whose `order_send` succeeded with the done code. -/
def envExecDone : ExecEnv :=
  ⟨true, some infoRegular, some ⟨100, 101⟩, some TRADE_RETCODE_DONE,
   some ⟨TRADE_RETCODE_DONE, 7, 8, 100, 1/100, "ok"⟩⟩

/-- Twenty-five M5 closes (24 flat, then a jump) whose EMA(8) ends above
EMA(21). -/
def m5closes : List ℚ :=
  [0, 0, 0, 0, 0, 0, 0, 0, 0, 0, 0, 0, 0, 0, 0, 0, 0, 0, 0, 0, 0, 0, 0, 0, 9]

/-- Twenty ATR values whose last ranks at the `0.95` percentile. -/
def atrExtremeList : List ℚ :=
  [1, 1, 1, 1, 1, 1, 1, 1, 1, 1, 1, 1, 1, 1, 1, 1, 1, 1, 1, 2]

/-- Engine environment that produces a BUY signal although the current tick
is inverted (`ask = 1 < bid = 2`): calm regime, 25 M5 closes whose EMA(8)
ends above EMA(21), two agreeing BUY strategies. -/
def envInvertedTick : EngineEnv :=
  ⟨some [1], some m5closes, true, some ⟨2, 1⟩,
   fun k => if k = "ema_crossover" then sigBuyEma
            else if k = "rsi_divergence" then sigBuyRsi
            else neutralSig k⟩

/-- Engine configuration with every strategy toggle left at its default. -/
def cfgAllEnabled : EngineConfig := ⟨fun _ => none⟩

/-- Engine environment whose M1 ATR history ranks the current value at the
`0.95` percentile, i.e. an EXTREME regime. -/
def envExtreme : EngineEnv :=
  ⟨some atrExtremeList, some m5closes, true, some ⟨2, 1⟩,
   fun k => if k = "ema_crossover" then sigBuyEma
            else if k = "rsi_divergence" then sigBuyRsi
            else neutralSig k⟩

/-- Engine environment whose tick has `ask = bid` (zero spread). -/
def envZeroSpread : EngineEnv :=
  ⟨some [1], some m5closes, true, some ⟨1, 1⟩,
   fun k => if k = "ema_crossover" then sigBuyEma
            else if k = "rsi_divergence" then sigBuyRsi
            else neutralSig k⟩

/-- 501 distinct history entries. -/
def entries501 : List SignalRecord :=
  (List.range 501).map fun (i : ℕ) =>
    ⟨"BTCUSDm", .BUY, (i : ℚ), "ema_crossover", 0, 0, 0, .NORMAL⟩

/-! ### Helper lemmas -/

theorem truncQ_intCast (k : ℤ) : truncQ (k : ℚ) = k := by
  unfold truncQ
  split <;> simp

theorem truncQ_mono {a b : ℚ} (h : a ≤ b) : truncQ a ≤ truncQ b := by
  unfold truncQ
  split <;> split
  · exact Int.ceil_le_ceil h
  · rename_i ha hb
    push_neg at hb
    have h1 : (⌈a⌉ : ℤ) ≤ 0 := Int.ceil_le.mpr (by exact_mod_cast ha.le)
    exact le_trans h1 (Int.floor_nonneg.mpr hb)
  · rename_i ha hb
    push_neg at ha
    exact absurd (h.trans_lt hb) (not_lt.mpr ha)
  · exact Int.floor_le_floor h

theorem truncQ_le_self {q : ℚ} (hq : 0 ≤ q) : ((truncQ q : ℤ) : ℚ) ≤ q := by
  unfold truncQ
  rw [if_neg (not_lt.mpr hq)]
  exact Int.floor_le q

theorem floor_step_mono {a b step : ℚ} (hs : 0 < step) (h : a ≤ b) :
    floor_step a step ≤ floor_step b step := by
  unfold floor_step
  have hdiv : a / step ≤ b / step := (div_le_div_iff_of_pos_right hs).mpr h
  have := truncQ_mono hdiv
  exact mul_le_mul_of_nonneg_right (by exact_mod_cast this) hs.le

theorem floor_step_le_self {a step : ℚ} (hs : 0 < step) (ha : 0 ≤ a) :
    floor_step a step ≤ a := by
  unfold floor_step
  rw [← le_div_iff₀ hs]
  exact truncQ_le_self (div_nonneg ha hs.le)

theorem floor_step_int_mul {k : ℤ} {step : ℚ} (hs : step ≠ 0) :
    floor_step ((k : ℚ) * step) step = (k : ℚ) * step := by
  unfold floor_step
  rw [mul_div_cancel_right₀ _ hs, truncQ_intCast]

theorem pyLastSlice_absorb {α : Type} (n : ℕ) (a b : List α) :
    pyLastSlice n (pyLastSlice n a ++ b) = pyLastSlice n (a ++ b) := by
  simp only [pyLastSlice, List.drop_append_eq_append_drop, List.drop_drop,
    List.length_drop, List.length_append]
  congr 2 <;> omega

theorem foldl_record_eq (l : List SignalRecord) :
    ∀ h : List SignalRecord,
      List.foldl _record_signal (pyLastSlice 500 h) l = pyLastSlice 500 (h ++ l) := by
  induction l with
  | nil => intro h; simp
  | cons x xs ih =>
    intro h
    have step : _record_signal (pyLastSlice 500 h) x = pyLastSlice 500 (h ++ [x]) := by
      simp only [_record_signal, pyLastSlice_absorb]
    calc List.foldl _record_signal (pyLastSlice 500 h) (x :: xs)
        = List.foldl _record_signal (pyLastSlice 500 (h ++ [x])) xs := by
          rw [List.foldl_cons, step]
      _ = pyLastSlice 500 ((h ++ [x]) ++ xs) := ih (h ++ [x])
      _ = pyLastSlice 500 (h ++ x :: xs) := by simp

theorem max_by_confidence_mem (first : SignalResult) (rest : List SignalResult) :
    max_by_confidence first rest = first ∨ max_by_confidence first rest ∈ rest := by
  induction rest generalizing first with
  | nil => left; rfl
  | cons x xs ih =>
    have hstep : max_by_confidence first (x :: xs) =
        max_by_confidence (if first.confidence < x.confidence then x else first) xs := rfl
    rcases ih (if first.confidence < x.confidence then x else first) with h | h
    · rw [hstep, h]
      by_cases hc : first.confidence < x.confidence
      · right
        rw [if_pos hc]
        exact List.mem_cons_self x xs
      · left
        rw [if_neg hc]
    · right
      rw [hstep]
      exact List.mem_cons_of_mem x h

theorem aggregate_direction_of_all (d : SignalDirection) (dirstr : String)
    (f : SignalResult) (rest : List SignalResult) (weights : String → Option ℚ)
    (hall : ∀ s ∈ f :: rest, s.direction = d) :
    (_aggregate dirstr (f :: rest) weights).1 = some (max_by_confidence f rest).direction ∧
      (max_by_confidence f rest).direction = d := by
  constructor
  · rfl
  · rcases max_by_confidence_mem f rest with h | h
    · rw [h]; exact hall f (List.mem_cons_self f rest)
    · exact hall _ (List.mem_cons_of_mem f h)

theorem _regime_multiplier_nonneg (regime : VolatilityRegime) :
    0 ≤ _regime_multiplier regime := by
  unfold _regime_multiplier
  split_ifs <;> norm_num

theorem quant_mono {a b step : ℚ} (h : a ≤ b) :
    (if 0 < step then floor_step a step else a) ≤
      (if 0 < step then floor_step b step else b) := by
  split_ifs with hs
  · exact floor_step_mono hs h
  · exact h

/-! ### Claim theorems -/

/-- C8: `detect_regime` maps the volatility-percentile rank `r` (fraction of
trailing ATR values strictly below the current one) to regimes by the
half-open intervals `r < 0.25 → LOW_VOL`, `0.25 ≤ r < 0.75 → NORMAL`,
`0.75 ≤ r < 0.95 → HIGH_VOL`, `0.95 ≤ r → EXTREME` (boundary values fall in
the higher-named bucket), and an empty ATR history yields NORMAL. -/
theorem C8_detect_regime_thresholds (series : List ℚ) (lookback : ℕ) :
    (series = [] → detect_regime series lookback = .NORMAL) ∧
    (series ≠ [] →
      (vol_rank series lookback < 1/4 ↔ detect_regime series lookback = .LOW_VOL) ∧
      (1/4 ≤ vol_rank series lookback ∧ vol_rank series lookback < 3/4 ↔
        detect_regime series lookback = .NORMAL) ∧
      (3/4 ≤ vol_rank series lookback ∧ vol_rank series lookback < 19/20 ↔
        detect_regime series lookback = .HIGH_VOL) ∧
      (19/20 ≤ vol_rank series lookback ↔ detect_regime series lookback = .EXTREME)) := by
  constructor
  · intro h
    simp [detect_regime, h]
  · intro h
    simp only [detect_regime, if_neg h]
    set r := vol_rank series lookback with hr
    split_ifs with h1 h2 h3
    · exact ⟨⟨fun _ => rfl, fun _ => h1⟩,
        ⟨fun hx => by exfalso; linarith [hx.1], fun hx => by simp at hx⟩,
        ⟨fun hx => by exfalso; linarith [hx.1], fun hx => by simp at hx⟩,
        ⟨fun hx => by exfalso; linarith, fun hx => by simp at hx⟩⟩
    · exact ⟨⟨fun hx => absurd hx h1, fun hx => by simp at hx⟩,
        ⟨fun _ => rfl, fun _ => ⟨le_of_not_lt h1, h2⟩⟩,
        ⟨fun hx => by exfalso; linarith [hx.1], fun hx => by simp at hx⟩,
        ⟨fun hx => by exfalso; linarith, fun hx => by simp at hx⟩⟩
    · exact ⟨⟨fun hx => absurd hx h1, fun hx => by simp at hx⟩,
        ⟨fun hx => absurd hx.2 h2, fun hx => by simp at hx⟩,
        ⟨fun _ => rfl, fun _ => ⟨le_of_not_lt h2, h3⟩⟩,
        ⟨fun hx => by exfalso; linarith, fun hx => by simp at hx⟩⟩
    · exact ⟨⟨fun hx => absurd hx h1, fun hx => by simp at hx⟩,
        ⟨fun hx => absurd hx.2 h2, fun hx => by simp at hx⟩,
        ⟨fun hx => absurd hx.2 h3, fun hx => by simp at hx⟩,
        ⟨fun _ => rfl, fun _ => le_of_not_lt h3⟩⟩

/-- C7: in `execute_market_order`, once the pipeline reaches the broker
`order_send` result, the outcome is successful exactly when the return code
is the done sentinel; a recognized code carries its fixed mapped message, an
unrecognized one the generic unknown-retcode message, and the raw code is
preserved in the details. -/
theorem C7_retcode_mapping (cfg : BotSettings) (env : ExecEnv) (symbol : String)
    (lot_size : ℚ) (info : SymbolInfo) (t : Tick) (res : MqlTradeResult)
    (hc : env.connected = true) (hi : env.symbol_info = some info)
    (ht : info.trade_allowed = true)
    (hl : 0 < _normalize_volume cfg info lot_size)
    (htk : env.tick = some t)
    (hchk : env.check_retcode = none ∨ env.check_retcode = some TRADE_RETCODE_DONE)
    (hs : env.send_result = some res) :
    ((execute_market_order cfg env symbol lot_size).success = true ↔
        res.retcode = TRADE_RETCODE_DONE) ∧
    (∀ m, RETCODE_MAP res.retcode = some m →
        (execute_market_order cfg env symbol lot_size).message = m) ∧
    (RETCODE_MAP res.retcode = none →
        (execute_market_order cfg env symbol lot_size).message = "Unknown retcode") ∧
    (execute_market_order cfg env symbol lot_size).details_retcode = some res.retcode := by
  have hout : execute_market_order cfg env symbol lot_size =
      ⟨decide (res.retcode = TRADE_RETCODE_DONE),
       (RETCODE_MAP res.retcode).getD "Unknown retcode",
       some res.retcode⟩ := by
    unfold execute_market_order
    rw [hc, hi, htk, hs]
    simp only [Bool.not_true, if_neg (by simp : ¬ (false = true))]
    rw [ht]
    simp only [Bool.not_true, if_neg (by simp : ¬ (false = true)), if_neg (not_le.mpr hl)]
    rcases hchk with h | h <;> rw [h] <;> simp
  rw [hout]
  refine ⟨by simp, ?_, ?_, rfl⟩
  · intro m hm
    simp [hm]
  · intro hm
    simp [hm]

/-- Witness for C8 at the concrete ATR series `[1, 1, 2]`, whose rank `2/3`
lies in the NORMAL band. -/
theorem C8_detect_regime_thresholds_witness :
    detect_regime [(1 : ℚ), 1, 2] 200 = .NORMAL ∧
      1/4 ≤ vol_rank [(1 : ℚ), 1, 2] 200 ∧ vol_rank [(1 : ℚ), 1, 2] 200 < 3/4 := by
  have h := (C8_detect_regime_thresholds [(1 : ℚ), 1, 2] 200).2 (by simp)
  have hv : vol_rank [(1 : ℚ), 1, 2] 200 = 2/3 := rfl
  have hr : 1/4 ≤ vol_rank [(1 : ℚ), 1, 2] 200 ∧ vol_rank [(1 : ℚ), 1, 2] 200 < 3/4 :=
    ⟨by rw [hv]; norm_num, by rw [hv]; norm_num⟩
  exact ⟨h.2.1.mp hr, hr⟩

/-- Witness for C7: a concrete environment whose `order_send` returned the
done code yields a successful outcome carrying the mapped message and the
raw code. -/
theorem C7_retcode_mapping_witness :
    (execute_market_order defaultSettings envExecDone "BTCUSDm" (1/100)).success = true ∧
    (execute_market_order defaultSettings envExecDone "BTCUSDm" (1/100)).message =
      "Order executed successfully" ∧
    (execute_market_order defaultSettings envExecDone "BTCUSDm" (1/100)).details_retcode =
      some TRADE_RETCODE_DONE := by
  have h := C7_retcode_mapping defaultSettings envExecDone "BTCUSDm" (1/100)
    infoRegular ⟨100, 101⟩ ⟨TRADE_RETCODE_DONE, 7, 8, 100, 1/100, "ok"⟩
    rfl rfl rfl (by
      norm_num [_normalize_volume, floor_step, truncQ, defaultSettings, infoRegular,
        min_def, max_def, Int.floor_one])
    rfl (Or.inr rfl) rfl
  exact ⟨h.1.mpr rfl, h.2.1 "Order executed successfully" rfl, h.2.2.2⟩

/-- C1: for a risk manager configured with a 5% daily-loss limit, an
unpaused state, a connected broker and an open-position count below the
maximum, `approve_trade` at equity 1000 with `daily_pnl = -51` rejects with
the daily-loss reason and latches the pause flag, after which every call is
rejected whatever the PnL; with `daily_pnl = -49` the daily-loss check
passes, the pause stays clear, and the outcome is decided by the remaining
correlation and free-margin rules. -/
theorem C1_daily_loss_breaker (cfg : BotSettings) (st : RiskState) (env : RiskEnv)
    (symbol direction : String)
    (hml : cfg.max_daily_loss_percent = 5)
    (hp : st.is_paused = false) (hc : env.connected = true)
    (hpos : ∀ n, env.total_positions = some n → n < cfg.max_open_positions) :
    (st.daily_pnl = -51 →
      (approve_trade cfg st env symbol direction 1000).1.approved = false ∧
      (approve_trade cfg st env symbol direction 1000).1.reason = "Daily loss limit hit" ∧
      (approve_trade cfg st env symbol direction 1000).2.is_paused = true ∧
      ∀ (pnl2 : ℚ) (env2 : RiskEnv) (sym2 dir2 : String) (eq2 : ℚ),
        (approve_trade cfg
          { (approve_trade cfg st env symbol direction 1000).2 with daily_pnl := pnl2 }
          env2 sym2 dir2 eq2).1.approved = false) ∧
    (st.daily_pnl = -49 →
      (approve_trade cfg st env symbol direction 1000).1.reason ≠ "Daily loss limit hit" ∧
      (approve_trade cfg st env symbol direction 1000).2.is_paused = false ∧
      ((approve_trade cfg st env symbol direction 1000).1.approved = true ↔
        _check_correlation env symbol = true ∧ _check_free_margin cfg env = true)) := by
  have hposfalse : (match env.total_positions with
      | some n => decide (cfg.max_open_positions ≤ n)
      | none => false) = false := by
    rcases hq : env.total_positions with _ | n
    · rfl
    · simpa using Nat.not_le.mpr (hpos n hq)
  have hlimit : (1000 : ℚ) * (cfg.max_daily_loss_percent / 100) * (-1) = -50 := by
    rw [hml]; norm_num
  constructor
  · intro hpnl
    have hout : approve_trade cfg st env symbol direction 1000 =
        (⟨false, "Daily loss limit hit"⟩, { st with is_paused := true }) := by
      unfold approve_trade
      rw [hp, hc, hposfalse, hlimit, hpnl]
      norm_num
    rw [hout]
    refine ⟨rfl, rfl, rfl, ?_⟩
    intro pnl2 env2 sym2 dir2 eq2
    unfold approve_trade
    simp
  · intro hpnl
    have hstep : approve_trade cfg st env symbol direction 1000 =
        (if ¬ _check_correlation env symbol then (⟨false, "Correlated exposure limit"⟩, st)
         else if ¬ _check_free_margin cfg env then (⟨false, "Free margin below threshold"⟩, st)
         else (⟨true, "Approved"⟩, st)) := by
      unfold approve_trade
      rw [hp, hc, hposfalse, hlimit, hpnl]
      norm_num
    rw [hstep]
    by_cases hcor : _check_correlation env symbol
    · by_cases hfm : _check_free_margin cfg env
      · rw [if_neg (by simpa using hcor), if_neg (by simpa using hfm)]
        exact ⟨by simp, hp, by simp [hcor, hfm]⟩
      · rw [if_neg (by simpa using hcor), if_pos (by simpa using hfm)]
        refine ⟨by simp, hp, ?_⟩
        constructor
        · intro hx
          exact absurd hx (by simp)
        · rintro ⟨h1, h2⟩
          exact absurd h2 (by simpa using hfm)
    · rw [if_pos (by simpa using hcor)]
      refine ⟨by simp, hp, ?_⟩
      constructor
      · intro hx
        exact absurd hx (by simp)
      · rintro ⟨h1, h2⟩
        exact absurd h1 (by simpa using hcor)

/-- Witness for C1: with the default settings, a healthy broker environment
and `daily_pnl = -51`, the trade is rejected and the pause latches (a later
call with positive PnL on the latched state is still rejected); with
`daily_pnl = -49` the daily-loss reason does not occur. -/
theorem C1_daily_loss_breaker_witness :
    (approve_trade defaultSettings stDown51 envHealthy "BTCUSDm" "BUY" 1000).1.approved = false ∧
    (approve_trade defaultSettings stDown51 envHealthy "BTCUSDm" "BUY" 1000).2.is_paused = true ∧
    (approve_trade defaultSettings
      { (approve_trade defaultSettings stDown51 envHealthy "BTCUSDm" "BUY" 1000).2 with
        daily_pnl := 1000 }
      envHealthy "XAUUSDm" "SELL" 5000).1.approved = false ∧
    (approve_trade defaultSettings stDown49 envHealthy "BTCUSDm" "BUY" 1000).1.reason ≠
      "Daily loss limit hit" := by
  have hposW : ∀ n, envHealthy.total_positions = some n →
      n < defaultSettings.max_open_positions := by
    intro n hn
    have h0 : (0 : ℕ) = n := by simpa [envHealthy] using hn
    simp [defaultSettings, ← h0]
  have h51 := (C1_daily_loss_breaker defaultSettings stDown51 envHealthy "BTCUSDm" "BUY"
    rfl rfl rfl hposW).1 rfl
  have h49 := (C1_daily_loss_breaker defaultSettings stDown49 envHealthy "BTCUSDm" "BUY"
    rfl rfl rfl hposW).2 rfl
  exact ⟨h51.1, h51.2.2.1, h51.2.2.2 1000 envHealthy "XAUUSDm" "SELL" 5000, h49.1⟩

/-- C9: folding 501 recorded entries through `_record_signal` from an empty
history retains exactly 500 of them — the oldest entry is evicted — and
`get_recent_signals` with any limit of at least 500 returns the retained
entries newest-first. -/
theorem C9_history_bound (entries : List SignalRecord) (hlen : entries.length = 501) :
    (entries.foldl _record_signal []).length = 500 ∧
    entries.foldl _record_signal [] = entries.drop 1 ∧
    ∀ limit, 500 ≤ limit →
      get_recent_signals (entries.foldl _record_signal []) limit = (entries.drop 1).reverse := by
  have hfold : entries.foldl _record_signal [] = pyLastSlice 500 entries := by
    have h := foldl_record_eq entries ([] : List SignalRecord)
    simpa [pyLastSlice] using h
  have hdrop : pyLastSlice 500 entries = entries.drop 1 := by
    simp [pyLastSlice, hlen]
  have hlen2 : (entries.drop 1).length = 500 := by simp [hlen]
  refine ⟨by rw [hfold, hdrop]; exact hlen2, by rw [hfold, hdrop], ?_⟩
  intro limit hlim
  rw [hfold, hdrop]
  have hz : (entries.drop 1).length - limit = 0 := by rw [hlen2]; omega
  unfold get_recent_signals pyLastSlice
  rw [hz, List.drop_zero]

/-- Witness for C9 at a concrete list of 501 distinct records. -/
theorem C9_history_bound_witness :
    (entries501.foldl _record_signal []).length = 500 ∧
    get_recent_signals (entries501.foldl _record_signal []) 500 =
      (entries501.drop 1).reverse := by
  have h := C9_history_bound entries501 (by
    unfold entries501
    rw [List.length_map, List.length_range])
  exact ⟨h.1, h.2.2 500 le_rfl⟩

/-- Counterexample to C6 as stated: on the strictly increasing series
`[1, 2, 3, 4]` with period 2 every delta in the window is positive, the
rolling average loss is zero, and `rsi` yields an absent (NA) value at the
last position, not the claimed `100`. -/
theorem C6_rsi_counterexample :
    rsi_last [(1 : ℚ), 2, 3, 4] 2 = none ∧ rsi_last [(1 : ℚ), 2, 3, 4] 2 ≠ some 100 := by
  have h : rsi_last [(1 : ℚ), 2, 3, 4] 2 = none := by
    norm_num [rsi_last, deltas, pyLastSlice]
  exact ⟨h, by rw [h]; simp⟩

/-- C6 (amended): whenever the rolling average loss over the window is zero
(all deltas in the window non-negative), the `rsi` value at that position is
an absent/NA value — the zero average loss is replaced by `pd.NA` before the
division and propagates — rather than an error or the value 100. -/
theorem C6_rsi_zero_loss_yields_na (xs : List ℚ) (period : ℕ)
    (hp : 1 ≤ period) (hlen : period ≤ (deltas xs).length)
    (hpos : ∀ d ∈ pyLastSlice period (deltas xs), 0 ≤ d) :
    rsi_last xs period = none := by
  unfold rsi_last
  rw [if_neg (by push_neg; exact ⟨by omega, hlen⟩)]
  have hsum : ((pyLastSlice period (deltas xs)).map fun d => max (-d) 0).sum = 0 := by
    apply List.sum_eq_zero
    intro x hx
    obtain ⟨d, hd, rfl⟩ := List.mem_map.mp hx
    exact max_eq_right (neg_nonpos.mpr (hpos d hd))
  show (if ((pyLastSlice period (deltas xs)).map fun d => max (-d) 0).sum / (period : ℚ) = 0
        then none else _) = none
  rw [hsum]
  simp

/-- Witness for the amended C6 at the concrete series `[1, 2, 3, 4]`,
period 2. -/
theorem C6_rsi_zero_loss_yields_na_witness :
    rsi_last [(1 : ℚ), 2, 3, 4] 2 = none ∧ deltas [(1 : ℚ), 2, 3, 4] = [1, 1, 1] := by
  have hd : deltas [(1 : ℚ), 2, 3, 4] = [1, 1, 1] := by
    norm_num [deltas]
  refine ⟨C6_rsi_zero_loss_yields_na [(1 : ℚ), 2, 3, 4] 2 (by norm_num)
    (by rw [hd]; norm_num) ?_, hd⟩
  intro d hdm
  rw [hd] at hdm
  simp [pyLastSlice] at hdm
  subst hdm
  norm_num

/-- Counterexample to C2 as stated: with exactly two BUY and two SELL
candidates the confluence algorithm emits a BUY decision — the BUY branch
accepts the tie (`len(buy) >= len(sell)`) — rather than no signal. -/
theorem C2_confluence_tie_counterexample :
    ([sigBuyEma, sigBuyRsi, sigSellBoll, sigSellVwap].filter
        (fun s => s.direction = SignalDirection.BUY)).length = 2 ∧
    ([sigBuyEma, sigBuyRsi, sigSellBoll, sigSellVwap].filter
        (fun s => s.direction = SignalDirection.SELL)).length = 2 ∧
    (_calculate_confluence [sigBuyEma, sigBuyRsi, sigSellBoll, sigSellVwap]
        (get_strategy_weights .LOW_VOL)).1 = some .BUY := by
  refine ⟨rfl, rfl, ?_⟩
  have hfb : ([sigBuyEma, sigBuyRsi, sigSellBoll, sigSellVwap].filter
      (fun s => s.direction = SignalDirection.BUY)) = [sigBuyEma, sigBuyRsi] := rfl
  have hfs : ([sigBuyEma, sigBuyRsi, sigSellBoll, sigSellVwap].filter
      (fun s => s.direction = SignalDirection.SELL)) = [sigSellBoll, sigSellVwap] := rfl
  have hall : ∀ s ∈ [sigBuyEma, sigBuyRsi], s.direction = SignalDirection.BUY := by
    intro s hs
    rcases List.mem_cons.mp hs with rfl | hs2
    · rfl
    · rcases List.mem_cons.mp hs2 with rfl | hs3
      · rfl
      · exact absurd hs3 (List.not_mem_nil s)
  unfold _calculate_confluence
  rw [hfb, hfs, if_pos (⟨by norm_num, by norm_num⟩ :
    2 ≤ [sigBuyEma, sigBuyRsi].length ∧
      [sigSellBoll, sigSellVwap].length ≤ [sigBuyEma, sigBuyRsi].length)]
  obtain ⟨h1, h2⟩ := aggregate_direction_of_all .BUY "BUY" sigBuyEma [sigBuyRsi]
    (get_strategy_weights .LOW_VOL) hall
  rw [h1, h2]

/-- C2 (amended): for candidate lists of non-neutral signals, 2 BUY + 1 SELL
yields a BUY decision and 1 BUY + 1 SELL yields no signal, as claimed; but
2 BUY + 2 SELL also yields a BUY decision, because the BUY branch requires
only that the BUY count be at least 2 and not exceeded by the SELL count —
an exact tie is resolved toward BUY, not toward silence. -/
theorem C2_confluence_counts (signals : List SignalResult)
    (weights : String → Option ℚ) :
    ((signals.filter fun s => s.direction = SignalDirection.BUY).length = 2 ∧
     (signals.filter fun s => s.direction = SignalDirection.SELL).length = 2 →
      (_calculate_confluence signals weights).1 = some .BUY) ∧
    ((signals.filter fun s => s.direction = SignalDirection.BUY).length = 1 ∧
     (signals.filter fun s => s.direction = SignalDirection.SELL).length = 1 →
      (_calculate_confluence signals weights).1 = none) ∧
    ((signals.filter fun s => s.direction = SignalDirection.BUY).length = 2 ∧
     (signals.filter fun s => s.direction = SignalDirection.SELL).length = 1 →
      (_calculate_confluence signals weights).1 = some .BUY) := by
  have hbuy_all : ∀ s ∈ signals.filter (fun s => s.direction = SignalDirection.BUY),
      s.direction = SignalDirection.BUY := by
    intro s hs
    simpa using List.of_mem_filter hs
  have hwin : ∀ nsell,
      (signals.filter fun s => s.direction = SignalDirection.BUY).length = 2 →
      (signals.filter fun s => s.direction = SignalDirection.SELL).length = nsell →
      nsell ≤ 2 →
      (_calculate_confluence signals weights).1 = some .BUY := by
    intro nsell hb hs hns
    unfold _calculate_confluence
    rw [if_pos (by rw [hb, hs]; omega : 2 ≤ (signals.filter fun s =>
      s.direction = SignalDirection.BUY).length ∧ (signals.filter fun s =>
      s.direction = SignalDirection.SELL).length ≤ (signals.filter fun s =>
      s.direction = SignalDirection.BUY).length)]
    obtain ⟨f, rest, hfr⟩ : ∃ f rest,
        signals.filter (fun s => s.direction = SignalDirection.BUY) = f :: rest := by
      cases hq : signals.filter (fun s => s.direction = SignalDirection.BUY) with
      | nil => rw [hq] at hb; simp at hb
      | cons f rest => exact ⟨f, rest, rfl⟩
    rw [hfr]
    have hall : ∀ s ∈ f :: rest, s.direction = SignalDirection.BUY := by
      rw [← hfr]; exact hbuy_all
    obtain ⟨h1, h2⟩ := aggregate_direction_of_all .BUY "BUY" f rest weights hall
    rw [h1, h2]
  refine ⟨fun h => hwin 2 h.1 h.2 (by omega), ?_, fun h => hwin 1 h.1 h.2 (by omega)⟩
  rintro ⟨hb, hs⟩
  unfold _calculate_confluence
  rw [if_neg (by rw [hb]; omega : ¬ (2 ≤ (signals.filter fun s =>
        s.direction = SignalDirection.BUY).length ∧ (signals.filter fun s =>
        s.direction = SignalDirection.SELL).length ≤ (signals.filter fun s =>
        s.direction = SignalDirection.BUY).length)),
      if_neg (by rw [hs]; omega : ¬ (2 ≤ (signals.filter fun s =>
        s.direction = SignalDirection.SELL).length ∧ (signals.filter fun s =>
        s.direction = SignalDirection.BUY).length < (signals.filter fun s =>
        s.direction = SignalDirection.SELL).length))]

/-- Witness for the amended C2 at concrete candidate lists: the 2+2 tie and
the 2+1 majority both yield BUY, the 1+1 split yields no signal. -/
theorem C2_confluence_counts_witness :
    (_calculate_confluence [sigBuyEma, sigBuyRsi, sigSellBoll, sigSellVwap]
        (get_strategy_weights .NORMAL)).1 = some .BUY ∧
    (_calculate_confluence [sigBuyEma, sigSellBoll]
        (get_strategy_weights .NORMAL)).1 = none ∧
    (_calculate_confluence [sigBuyEma, sigBuyRsi, sigSellBoll]
        (get_strategy_weights .NORMAL)).1 = some .BUY :=
  ⟨(C2_confluence_counts [sigBuyEma, sigBuyRsi, sigSellBoll, sigSellVwap]
      (get_strategy_weights .NORMAL)).1 ⟨rfl, rfl⟩,
   (C2_confluence_counts [sigBuyEma, sigSellBoll]
      (get_strategy_weights .NORMAL)).2.1 ⟨rfl, rfl⟩,
   (C2_confluence_counts [sigBuyEma, sigBuyRsi, sigSellBoll]
      (get_strategy_weights .NORMAL)).2.2 ⟨rfl, rfl⟩⟩

/-- Counterexample to C3 as stated: with the default global lot cap `0.01`
and an instrument whose minimum lot is `0.1`, `calculate_lot_size` returns
`0.1`, which lies above `min(instrument max, cap) = 0.01` — the result is
not within the claimed interval. -/
theorem C3_lot_range_counterexample :
    calculate_lot_size defaultSettings (some infoMinAboveCap) 1000 1 .NORMAL = 1/10 ∧
    min infoMinAboveCap.volume_max defaultSettings.max_lot_size = 1/100 ∧
    ¬ ((1 : ℚ)/10 ≤ 1/100) := by
  refine ⟨?_, by norm_num [infoMinAboveCap, defaultSettings, min_def], by norm_num⟩
  have hmul : _regime_multiplier .NORMAL = 1 := rfl
  have h1000 : ((1000 : ℤ) : ℚ) * (1/100) = 10 := by norm_num
  have hfs : floor_step 10 (1/100) = 10 := by
    rw [← h1000, floor_step_int_mul (by norm_num : ((1 : ℚ)/100) ≠ 0), h1000]
  unfold calculate_lot_size
  rw [if_neg (by norm_num : ¬ (1 : ℚ) ≤ 0)]
  dsimp only
  rw [if_neg (by norm_num [infoMinAboveCap] :
    ¬ (infoMinAboveCap.trade_tick_value ≤ 0 ∨ infoMinAboveCap.trade_tick_size ≤ 0))]
  norm_num [defaultSettings, infoMinAboveCap, hmul, hfs, min_def, max_def]

/-- C3 (amended): the clamped lot is always of the form
`max(min_lot, min(lot, max_lot))`; it lies within
`[instrument-or-override minimum, min(instrument maximum, global cap)]` and
is an exact multiple of the volume step provided the effective minimum does
not exceed the capped maximum, both bounds are themselves multiples of the
step, the volume step is non-negative and (for `calculate_lot_size`) the
instrument's tick value and tick size are positive; without those
side conditions the result can leave the claimed interval (see the
counterexample).  The same holds for the executor's `_normalize_volume`,
which floors after clamping. -/
theorem C3_lot_invariant_conditional :
    (∀ (cfg : BotSettings) (info : SymbolInfo) (equity sl_points : ℚ)
        (regime : VolatilityRegime) (step min_lot max_lot : ℚ),
      0 < info.trade_tick_value → 0 < info.trade_tick_size → 0 ≤ info.volume_step →
      0 < sl_points →
      step = (if info.volume_step = 0 then 1/100 else info.volume_step) →
      min_lot = (cfg.symbol_min_lots info.name).getD info.volume_min →
      max_lot = min info.volume_max cfg.max_lot_size →
      (∃ a : ℤ, min_lot = (a : ℚ) * step) →
      (∃ b : ℤ, max_lot = (b : ℚ) * step) →
      min_lot ≤ max_lot →
      min_lot ≤ calculate_lot_size cfg (some info) equity sl_points regime ∧
      calculate_lot_size cfg (some info) equity sl_points regime ≤ max_lot ∧
      (∃ k : ℤ, calculate_lot_size cfg (some info) equity sl_points regime =
        (k : ℚ) * step)) ∧
    (∀ (cfg : BotSettings) (info : SymbolInfo) (lot_size : ℚ) (step max_lot : ℚ),
      0 ≤ info.volume_min → 0 ≤ info.volume_step →
      step = (if info.volume_step = 0 then 1/100 else info.volume_step) →
      max_lot = min info.volume_max cfg.max_lot_size →
      (∃ a : ℤ, info.volume_min = (a : ℚ) * step) →
      info.volume_min ≤ max_lot →
      info.volume_min ≤ _normalize_volume cfg info lot_size ∧
      _normalize_volume cfg info lot_size ≤ max_lot ∧
      (∃ k : ℤ, _normalize_volume cfg info lot_size = (k : ℚ) * step)) := by
  constructor
  · intro cfg info equity sl regime step min_lot max_lot htv hts hvs hsl hstep hmin hmax
      hma hmb hmm
    have hstep_pos : 0 < step := by
      rw [hstep]
      split_ifs with h
      · norm_num
      · exact lt_of_le_of_ne hvs (Ne.symm h)
    unfold calculate_lot_size
    rw [if_neg (not_le.mpr hsl)]
    dsimp only
    rw [if_neg (by push_neg; exact ⟨htv, hts⟩), ← hstep, ← hmin, ← hmax, if_pos hstep_pos]
    refine ⟨le_max_left _ _, max_le hmm (min_le_right _ _), ?_⟩
    rcases max_choice min_lot (min (floor_step (equity * (cfg.max_risk_per_trade_percent / 100) /
        (sl * (info.trade_tick_value / info.trade_tick_size)) * _regime_multiplier regime) step)
        max_lot) with hm | hm <;> rw [hm]
    · exact hma
    · rcases min_choice (floor_step (equity * (cfg.max_risk_per_trade_percent / 100) /
          (sl * (info.trade_tick_value / info.trade_tick_size)) * _regime_multiplier regime) step)
          max_lot with hc | hc <;> rw [hc]
      · exact ⟨truncQ (equity * (cfg.max_risk_per_trade_percent / 100) /
          (sl * (info.trade_tick_value / info.trade_tick_size)) * _regime_multiplier regime / step),
          rfl⟩
      · exact hmb
  · intro cfg info lot_size step max_lot h0min hvs hstep hmax hma hmm
    have hstep_pos : 0 < step := by
      rw [hstep]
      split_ifs with h
      · norm_num
      · exact lt_of_le_of_ne hvs (Ne.symm h)
    unfold _normalize_volume
    dsimp only
    rw [← hstep, ← hmax, if_neg (not_lt.mpr hmm), if_pos hstep_pos]
    obtain ⟨a, ha⟩ := hma
    have hclamped_ge : info.volume_min ≤ max info.volume_min (min lot_size max_lot) :=
      le_max_left _ _
    have hclamped_le : max info.volume_min (min lot_size max_lot) ≤ max_lot :=
      max_le hmm (min_le_right _ _)
    have hclamped_nonneg : 0 ≤ max info.volume_min (min lot_size max_lot) :=
      le_trans h0min hclamped_ge
    refine ⟨?_, le_trans (floor_step_le_self hstep_pos hclamped_nonneg) hclamped_le,
      ⟨truncQ (max info.volume_min (min lot_size max_lot) / step), rfl⟩⟩
    calc info.volume_min = floor_step info.volume_min step := by
          rw [ha, floor_step_int_mul (ne_of_gt hstep_pos)]
      _ ≤ floor_step (max info.volume_min (min lot_size max_lot)) step :=
          floor_step_mono hstep_pos hclamped_ge

/-- Witness for the amended C3 at a well-formed instrument (min `0.01`,
max `100`, step `0.01`, cap `0.01`): both lot functions land exactly on
`0.01`, inside the interval and on the step grid. -/
theorem C3_lot_invariant_conditional_witness :
    ((1 : ℚ)/100 ≤ calculate_lot_size defaultSettings (some infoRegular) 1000 1 .NORMAL ∧
      calculate_lot_size defaultSettings (some infoRegular) 1000 1 .NORMAL ≤ 1/100 ∧
      ∃ k : ℤ, calculate_lot_size defaultSettings (some infoRegular) 1000 1 .NORMAL =
        (k : ℚ) * (1/100)) ∧
    ((1 : ℚ)/100 ≤ _normalize_volume defaultSettings infoRegular (5/100) ∧
      _normalize_volume defaultSettings infoRegular (5/100) ≤ 1/100 ∧
      ∃ k : ℤ, _normalize_volume defaultSettings infoRegular (5/100) = (k : ℚ) * (1/100)) := by
  constructor
  · exact (C3_lot_invariant_conditional).1 defaultSettings infoRegular 1000 1 .NORMAL
      (1/100) (1/100) (1/100)
      (by norm_num [infoRegular]) (by norm_num [infoRegular]) (by norm_num [infoRegular])
      (by norm_num)
      (by norm_num [infoRegular]) (by simp [defaultSettings, infoRegular])
      (by norm_num [infoRegular, defaultSettings, min_def])
      ⟨1, by norm_num⟩ ⟨1, by norm_num⟩ le_rfl
  · exact (C3_lot_invariant_conditional).2 defaultSettings infoRegular (5/100)
      (1/100) (1/100)
      (by norm_num [infoRegular]) (by norm_num [infoRegular]) (by norm_num [infoRegular])
      (by norm_num [infoRegular, defaultSettings, min_def])
      ⟨1, by norm_num [infoRegular]⟩ (by norm_num [infoRegular])

/-- C4: for a fixed symbol, equity and regime (with non-negative equity and
risk percentage, as configured), `calculate_lot_size` is monotonically
non-increasing in the stop distance over positive stops, monotonically
non-decreasing in the configured max-risk-per-trade percentage, and returns
exactly 0 for a zero or negative stop distance. -/
theorem C4_lot_size_monotonicity :
    (∀ (cfg : BotSettings) (info? : Option SymbolInfo) (equity sl : ℚ)
        (regime : VolatilityRegime), sl ≤ 0 →
      calculate_lot_size cfg info? equity sl regime = 0) ∧
    (∀ (cfg : BotSettings) (info? : Option SymbolInfo) (equity : ℚ)
        (regime : VolatilityRegime) (sl1 sl2 : ℚ),
      0 ≤ equity → 0 ≤ cfg.max_risk_per_trade_percent → 0 < sl1 → sl1 ≤ sl2 →
      calculate_lot_size cfg info? equity sl2 regime ≤
        calculate_lot_size cfg info? equity sl1 regime) ∧
    (∀ (cfg : BotSettings) (info? : Option SymbolInfo) (equity sl : ℚ)
        (regime : VolatilityRegime) (r1 r2 : ℚ),
      0 ≤ equity → r1 ≤ r2 →
      calculate_lot_size { cfg with max_risk_per_trade_percent := r1 } info? equity sl regime ≤
        calculate_lot_size { cfg with max_risk_per_trade_percent := r2 } info? equity sl regime) := by
  refine ⟨?_, ?_, ?_⟩
  · intro cfg info? equity sl regime hsl
    unfold calculate_lot_size
    rw [if_pos hsl]
  · intro cfg info? equity regime sl1 sl2 he hr hsl1 hsl12
    have hsl2 : 0 < sl2 := lt_of_lt_of_le hsl1 hsl12
    unfold calculate_lot_size
    rw [if_neg (not_le.mpr hsl1), if_neg (not_le.mpr hsl2)]
    cases info? with
    | none => exact le_refl 0
    | some info =>
      dsimp only
      by_cases hdeg : info.trade_tick_value ≤ 0 ∨ info.trade_tick_size ≤ 0
      · rw [if_pos hdeg, if_pos hdeg]
      · rw [if_neg hdeg, if_neg hdeg]
        push_neg at hdeg
        obtain ⟨htv, hts⟩ := hdeg
        have hVpos : 0 < info.trade_tick_value / info.trade_tick_size := div_pos htv hts
        have hrisk : 0 ≤ equity * (cfg.max_risk_per_trade_percent / 100) :=
          mul_nonneg he (div_nonneg hr (by norm_num))
        have hbase : equity * (cfg.max_risk_per_trade_percent / 100) /
              (sl2 * (info.trade_tick_value / info.trade_tick_size)) ≤
            equity * (cfg.max_risk_per_trade_percent / 100) /
              (sl1 * (info.trade_tick_value / info.trade_tick_size)) := by
          rw [div_le_div_iff₀ (mul_pos hsl2 hVpos) (mul_pos hsl1 hVpos)]
          exact mul_le_mul_of_nonneg_left
            (mul_le_mul_of_nonneg_right hsl12 hVpos.le) hrisk
        have hlot0 := mul_le_mul_of_nonneg_right hbase (_regime_multiplier_nonneg regime)
        exact max_le_max le_rfl (min_le_min (quant_mono hlot0) le_rfl)
  · intro cfg info? equity sl regime r1 r2 he hr12
    by_cases hsl : sl ≤ 0
    · unfold calculate_lot_size
      rw [if_pos hsl, if_pos hsl]
    · push_neg at hsl
      unfold calculate_lot_size
      rw [if_neg (not_le.mpr hsl), if_neg (not_le.mpr hsl)]
      cases info? with
      | none => exact le_refl 0
      | some info =>
        dsimp only
        by_cases hdeg : info.trade_tick_value ≤ 0 ∨ info.trade_tick_size ≤ 0
        · rw [if_pos hdeg, if_pos hdeg]
        · rw [if_neg hdeg, if_neg hdeg]
          push_neg at hdeg
          obtain ⟨htv, hts⟩ := hdeg
          have hVpos : 0 < info.trade_tick_value / info.trade_tick_size := div_pos htv hts
          have hnum : equity * (r1 / 100) ≤ equity * (r2 / 100) :=
            mul_le_mul_of_nonneg_left (by linarith) he
          have hbase := (div_le_div_iff_of_pos_right (mul_pos hsl hVpos)).mpr hnum
          have hlot0 := mul_le_mul_of_nonneg_right hbase (_regime_multiplier_nonneg regime)
          exact max_le_max le_rfl (min_le_min (quant_mono hlot0) le_rfl)

/-- Witness for C4 at concrete inputs: widening the stop from 1 to 2 does not
increase the lot, raising the risk percentage from 1 to 2 does not decrease
it, and a negative stop yields the zero lot. -/
theorem C4_lot_size_monotonicity_witness :
    calculate_lot_size defaultSettings (some infoRegular) 1000 2 .NORMAL ≤
      calculate_lot_size defaultSettings (some infoRegular) 1000 1 .NORMAL ∧
    calculate_lot_size { defaultSettings with max_risk_per_trade_percent := 1 }
        (some infoRegular) 1000 1 .NORMAL ≤
      calculate_lot_size { defaultSettings with max_risk_per_trade_percent := 2 }
        (some infoRegular) 1000 1 .NORMAL ∧
    calculate_lot_size defaultSettings (some infoRegular) 1000 (-1) .NORMAL = 0 :=
  ⟨C4_lot_size_monotonicity.2.1 defaultSettings (some infoRegular) 1000 .NORMAL 1 2
      (by norm_num) (by norm_num [defaultSettings]) (by norm_num) (by norm_num),
   C4_lot_size_monotonicity.2.2 defaultSettings (some infoRegular) 1000 1 .NORMAL 1 2
      (by norm_num) (by norm_num),
   C4_lot_size_monotonicity.1 defaultSettings (some infoRegular) 1000 (-1) .NORMAL
      (by norm_num)⟩

/-- C10: whenever the volatility regime detected on the M1 bar series is
EXTREME, `generate_signal` returns no signal, for every engine configuration
and every behaviour of the strategies — the skip precedes the strategy loop
and consults no flag, so no toggle or parameter override can make a signal
appear (`DEBUG_SIGNALS` only controls logging). -/
theorem C10_extreme_regime_skip (cfg : EngineConfig) (env : EngineEnv) (atr1 : List ℚ)
    (h1 : env.bars_m1_atr = some atr1)
    (hex : detect_regime atr1 200 = .EXTREME) :
    generate_signal cfg env = none := by
  unfold generate_signal
  rw [h1]
  rcases h5 : env.bars_m5_close with _ | close5
  · rfl
  · dsimp only
    by_cases h15 : env.bars_m15_present = false
    · rw [if_pos h15]
    · rw [if_neg h15, hex, if_pos rfl]

/-- Witness for C10: the concrete EXTREME-ranked ATR history suppresses the
signal even though every strategy agrees on BUY and every toggle is at its
default. -/
theorem C10_extreme_regime_skip_witness :
    generate_signal cfgAllEnabled envExtreme = none ∧
    detect_regime atrExtremeList 200 = .EXTREME := by
  have hrank : vol_rank atrExtremeList 200 = 19/20 := by
    norm_num [vol_rank, vol_window, pct_rank, pyLastSlice, atrExtremeList,
      List.countP_cons, List.countP_nil, List.getLast?]
  have hex : detect_regime atrExtremeList 200 = .EXTREME := by
    rw [detect_regime, if_neg (by simp [atrExtremeList]), hrank]
    norm_num
  exact ⟨C10_extreme_regime_skip cfgAllEnabled envExtreme atrExtremeList rfl hex, hex⟩

/-- Counterexample to C5 as stated: the spread filter tests
`abs(ask - bid) > 0`, so an inverted tick with `ask = 1 < bid = 2`
(non-positive spread `ask - bid = -1`) passes it, and the engine emits a BUY
signal. -/
theorem C5_spread_counterexample :
    generate_signal cfgAllEnabled envInvertedTick =
      some { sigBuyEma with confidence := 38/45 } ∧
    envInvertedTick.tick = some ⟨2, 1⟩ ∧
    (⟨2, 1⟩ : Tick).ask ≤ (⟨2, 1⟩ : Tick).bid := by
  have hr : vol_rank [(1 : ℚ)] 200 = 0 := by
    norm_num [vol_rank, vol_window, pct_rank, pyLastSlice,
      List.countP_cons, List.countP_nil, List.getLast?]
  have hregime : detect_regime [(1 : ℚ)] 200 = .LOW_VOL := by
    rw [detect_regime, if_neg (by simp), hr]
    norm_num
  have hsignals : (((strategy_keys.filter fun k =>
      (cfgAllEnabled.strategy_enabled k).getD true).map
      envInvertedTick.strategy_signal).filter fun s =>
      s.direction ≠ SignalDirection.NEUTRAL) = [sigBuyEma, sigBuyRsi] := rfl
  have hbuyfil : ([sigBuyEma, sigBuyRsi].filter fun s =>
      s.direction = SignalDirection.BUY) = [sigBuyEma, sigBuyRsi] := rfl
  have hsellfil : ([sigBuyEma, sigBuyRsi].filter fun s =>
      s.direction = SignalDirection.SELL) = ([] : List SignalResult) := rfl
  have hmax : max_by_confidence sigBuyEma [sigBuyRsi] = sigBuyEma := by
    unfold max_by_confidence
    rw [List.foldl_cons, List.foldl_nil, if_neg (by norm_num [sigBuyEma, sigBuyRsi])]
  have hcf : _calculate_confluence [sigBuyEma, sigBuyRsi] (get_strategy_weights .LOW_VOL) =
      (some SignalDirection.BUY, 38/45, sigBuyEma) := by
    unfold _calculate_confluence
    rw [hbuyfil, hsellfil, if_pos (⟨by norm_num, by norm_num⟩ :
      2 ≤ ([sigBuyEma, sigBuyRsi] : List SignalResult).length ∧
        ([] : List SignalResult).length ≤ ([sigBuyEma, sigBuyRsi] : List SignalResult).length)]
    unfold _aggregate
    dsimp only
    rw [hmax]
    have hw1 : get_strategy_weights .LOW_VOL "ema_crossover" = some (20/100) := rfl
    have hw2 : get_strategy_weights .LOW_VOL "rsi_divergence" = some (25/100) := rfl
    norm_num [sigBuyEma, sigBuyRsi, hw1, hw2, List.foldl_cons, List.foldl_nil,
      Prod.ext_iff]
  have hfast : ema_last m5closes 8 = 2 := by
    norm_num [ema_last, m5closes, List.foldl_cons, List.foldl_nil]
  have hslow : ema_last m5closes 21 = 9/11 := by
    norm_num [ema_last, m5closes, List.foldl_cons, List.foldl_nil]
  have htrend : _trend_alignment_ok SignalDirection.BUY (some m5closes) = true := by
    unfold _trend_alignment_ok
    dsimp only
    rw [if_neg (by norm_num [m5closes] : ¬ (m5closes.length < 25)), hfast, hslow,
      if_pos (⟨by norm_num, rfl⟩ :
        (9/11 : ℚ) < 2 ∧ SignalDirection.BUY = SignalDirection.BUY)]
  have hspread : _spread_ok envInvertedTick.tick = true := by
    rw [show envInvertedTick.tick = some ⟨2, 1⟩ from rfl]
    unfold _spread_ok
    simp only [decide_eq_true_eq]
    norm_num
  refine ⟨?_, rfl, by norm_num⟩
  unfold generate_signal
  rw [show envInvertedTick.bars_m1_atr = some [(1 : ℚ)] from rfl,
    show envInvertedTick.bars_m5_close = some m5closes from rfl]
  dsimp only
  rw [if_neg (by simp [envInvertedTick] : ¬ envInvertedTick.bars_m15_present = false),
    hregime,
    if_neg (by simp : ¬ VolatilityRegime.LOW_VOL = VolatilityRegime.EXTREME),
    hsignals,
    if_neg (by simp : ¬ ([sigBuyEma, sigBuyRsi] : List SignalResult) = []),
    hcf]
  dsimp only
  rw [if_neg (by norm_num : ¬ (38/45 : ℚ) < 7/10),
    if_neg (show ¬ ¬ _trend_alignment_ok SignalDirection.BUY (some m5closes) = true from by
      rw [htrend]; simp),
    if_neg (show ¬ ¬ _spread_ok envInvertedTick.tick = true from by rw [hspread]; simp)]

/-- C5 (amended): the engine emits a signal only when the tick is present and
its absolute bid/ask difference is strictly positive, i.e. `ask ≠ bid`; a
tick with `ask = bid` (or a missing tick) always suppresses the signal, but
an inverted tick with `ask < bid` — a non-positive spread — is not rejected
(see the counterexample). -/
theorem C5_spread_filter (cfg : EngineConfig) (env : EngineEnv) :
    (∀ s, generate_signal cfg env = some s →
      ∃ t, env.tick = some t ∧ t.ask ≠ t.bid) ∧
    (∀ t, env.tick = some t → t.ask = t.bid → generate_signal cfg env = none) := by
  have hkey : ∀ s, generate_signal cfg env = some s → _spread_ok env.tick = true := by
    intro s h
    unfold generate_signal at h
    rcases h1 : env.bars_m1_atr with _ | atr1 <;> rw [h1] at h
    · exact absurd h (by simp)
    rcases h5 : env.bars_m5_close with _ | close5 <;> rw [h5] at h
    · exact absurd h (by simp)
    dsimp only at h
    by_cases h15 : env.bars_m15_present = false
    · rw [if_pos h15] at h
      exact absurd h (by simp)
    rw [if_neg h15] at h
    by_cases hex : detect_regime atr1 200 = VolatilityRegime.EXTREME
    · rw [if_pos hex] at h
      exact absurd h (by simp)
    rw [if_neg hex] at h
    by_cases hempty : (((strategy_keys.filter fun k =>
        (cfg.strategy_enabled k).getD true).map env.strategy_signal).filter fun s =>
        s.direction ≠ SignalDirection.NEUTRAL) = []
    · rw [if_pos hempty] at h
      exact absurd h (by simp)
    rw [if_neg hempty] at h
    rcases hcf : (_calculate_confluence
        (((strategy_keys.filter fun k => (cfg.strategy_enabled k).getD true).map
          env.strategy_signal).filter fun s => s.direction ≠ SignalDirection.NEUTRAL)
        (get_strategy_weights (detect_regime atr1 200))).1 with _ | dir <;> rw [hcf] at h
    · exact absurd h (by simp)
    dsimp only at h
    split_ifs at h with hconf htrend hspread
    all_goals try simp at h
    exact hspread
  constructor
  · intro s h
    have hok := hkey s h
    unfold _spread_ok at hok
    rcases ht : env.tick with _ | t <;> rw [ht] at hok
    · exact absurd hok (by simp)
    · refine ⟨t, rfl, ?_⟩
      have habs : 0 < |t.ask - t.bid| := of_decide_eq_true hok
      intro heq
      rw [heq, sub_self, abs_zero] at habs
      exact lt_irrefl 0 habs
  · intro t ht heq
    have hsp : _spread_ok env.tick = false := by
      unfold _spread_ok
      rw [ht]
      rw [decide_eq_false_iff_not]
      rw [heq, sub_self, abs_zero]
      exact lt_irrefl 0
    unfold generate_signal
    rcases h1 : env.bars_m1_atr with _ | atr1
    · rfl
    rcases h5 : env.bars_m5_close with _ | close5
    · rfl
    dsimp only
    by_cases h15 : env.bars_m15_present = false
    · rw [if_pos h15]
    rw [if_neg h15]
    by_cases hex : detect_regime atr1 200 = VolatilityRegime.EXTREME
    · rw [if_pos hex]
    rw [if_neg hex]
    by_cases hempty : (((strategy_keys.filter fun k =>
        (cfg.strategy_enabled k).getD true).map env.strategy_signal).filter fun s =>
        s.direction ≠ SignalDirection.NEUTRAL) = []
    · rw [if_pos hempty]
    rw [if_neg hempty]
    rcases hcf : (_calculate_confluence
        (((strategy_keys.filter fun k => (cfg.strategy_enabled k).getD true).map
          env.strategy_signal).filter fun s => s.direction ≠ SignalDirection.NEUTRAL)
        (get_strategy_weights (detect_regime atr1 200))).1 with _ | dir
    · rfl
    dsimp only
    split_ifs with hconf htrend hspread
    all_goals try rfl
    exact absurd hspread (by rw [hsp]; simp)

/-- Witness for the amended C5: a tick with `ask = bid = 1` yields no signal
even though the strategies and trend agree. -/
theorem C5_spread_filter_witness :
    generate_signal cfgAllEnabled envZeroSpread = none :=
  (C5_spread_filter cfgAllEnabled envZeroSpread).2 ⟨1, 1⟩ rfl rfl

end TradeBot












